import Mathlib

/-!
Verification of the `outcome` crate: a two-variant `Outcome` value type
(`Success` / `Failure`) with boolean-logic-style combinators, embedded
from `src/lib.rs`.

`or_panic` is the only fallible operation in the source (it panics on
`Failure`); it is embedded as `Except String T`, where `Except.error msg`
stands for a panic with message `msg`.
-/

/-- The `Outcome` enum of `src/lib.rs`: either `Success` or `Failure`,
neither carrying a payload. -/
inductive Outcome : Type
  | Success
  | Failure
deriving DecidableEq, Repr

namespace Outcome

/-- `Outcome::from_bool`: returns `Success` if `good` is `true`,
otherwise `Failure`. -/
def from_bool (good : Bool) : Outcome :=
  match good with
  | true => Success
  | false => Failure

/-- `Outcome::is_success`: `true` iff the outcome equals `Success`. -/
def is_success (self : Outcome) : Bool :=
  self == Success

/-- `Outcome::is_failure`: the boolean negation of `is_success`. -/
def is_failure (self : Outcome) : Bool :=
  ! self.is_success

/-- `Outcome::or_none`: maps `Success` to `some ok` and `Failure` to
`none`. -/
def or_none {T : Type} (self : Outcome) (ok : T) : Option T :=
  match self with
  | Success => some ok
  | Failure => none

/-- `Outcome::or_err`: maps `Success` to `Ok good` and `Failure` to
`Err err` (Rust `Result<T, E>` is `Except E T`). -/
def or_err {T E : Type} (self : Outcome) (good : T) (err : E) : Except E T :=
  match self with
  | Success => Except.ok good
  | Failure => Except.error err

/-- `Outcome::or_panic`: returns `good` on `Success`; on `Failure` it
panics with the message written in the source. The panic is embedded as
`Except.error` carrying that message string. -/
def or_panic {T : Type} (self : Outcome) (good : T) : Except String T :=
  match self with
  | Success => Except.ok good
  | Failure => Except.error "Called `Outcome::or_panic(...)` on a `Failure` value"

/-- `Outcome::and`: `Failure` if self is `Failure`, otherwise `outb`. -/
def and (self : Outcome) (outb : Outcome) : Outcome :=
  match self with
  | Success => outb
  | Failure => Failure

/-- `Outcome::or`: `Success` if self is `Success`, otherwise `outb`. -/
def or (self : Outcome) (outb : Outcome) : Outcome :=
  match self with
  | Success => Success
  | Failure => outb

/-- `Outcome::and_then`: `Failure` if self is `Failure`, otherwise the
result of calling `f`. -/
def and_then (self : Outcome) (f : Unit → Outcome) : Outcome :=
  match self with
  | Success => f ()
  | Failure => Failure

/-- `Outcome::or_then`: `Success` if self is `Success`, otherwise the
result of calling `f`. -/
def or_then (self : Outcome) (f : Unit → Outcome) : Outcome :=
  match self with
  | Success => Success
  | Failure => f ()

end Outcome

/-!
Theorems for the claims, stated over the definitions above.
-/

/-- C1 counterexample: the panic message in the source is
"Called `Outcome::or_panic(...)` on a `Failure` value", not the string
"called or_panic on a Failure value" quoted by the claim, so the claim
as stated fails at input `Failure.or_panic 0`. -/
theorem C1_counterexample :
    Outcome.or_panic Outcome.Failure (0 : Nat)
      ≠ Except.error "called or_panic on a Failure value" := by
  intro h
  exact absurd (Except.error.inj h) (by decide)

/-- C1 (amended): for every value `x`, `Success.or_panic x` returns `x`,
and `Failure.or_panic x` does not return a value but terminates the
current operation abnormally with the descriptive message
"Called `Outcome::or_panic(...)` on a `Failure` value". -/
theorem C1_or_panic_spec (T : Type) (x : T) :
    Outcome.or_panic Outcome.Success x = Except.ok x
      ∧ Outcome.or_panic Outcome.Failure x
          = Except.error "Called `Outcome::or_panic(...)` on a `Failure` value"
      ∧ ∀ y : T, Outcome.or_panic Outcome.Failure x ≠ Except.ok y := by
  refine ⟨rfl, rfl, ?_⟩
  intro y h
  exact Except.noConfusion h

/-- C2: `from_bool true` is `Success` and `from_bool false` is `Failure`;
consequently `(from_bool b).is_success = b` and
`(from_bool b).is_failure = !b` for every boolean `b`. -/
theorem C2_from_bool_spec (b : Bool) :
    Outcome.from_bool b
        = (if b then Outcome.Success else Outcome.Failure)
      ∧ (Outcome.from_bool b).is_success = b
      ∧ (Outcome.from_bool b).is_failure = ! b := by
  cases b <;> exact ⟨rfl, rfl, rfl⟩

/-- C3: for every Outcome `o`, exactly one of `o.is_success` and
`o.is_failure` is true, and `is_failure` is the boolean negation of
`is_success`. -/
theorem C3_exactly_one (o : Outcome) :
    ((o.is_success = true ∧ o.is_failure = false)
        ∨ (o.is_success = false ∧ o.is_failure = true))
      ∧ ¬ (o.is_success = true ∧ o.is_failure = true)
      ∧ o.is_failure = ! o.is_success := by
  cases o <;> exact ⟨by simp [Outcome.is_success, Outcome.is_failure],
    by simp [Outcome.is_success, Outcome.is_failure], rfl⟩

/-- C4: for every Outcome `o`, `Success.and o = o` and
`Failure.and o = Failure`. -/
theorem C4_and_spec (o : Outcome) :
    Outcome.and Outcome.Success o = o
      ∧ Outcome.and Outcome.Failure o = Outcome.Failure :=
  ⟨rfl, rfl⟩

/-- C5: for every Outcome `o`, `Success.or o = Success` and
`Failure.or o = o`. -/
theorem C5_or_spec (o : Outcome) :
    Outcome.or Outcome.Success o = Outcome.Success
      ∧ Outcome.or Outcome.Failure o = o :=
  ⟨rfl, rfl⟩

/-- C6: for every thunk `f` producing an Outcome,
`Success.and_then f = f ()` and `Failure.and_then f = Failure`; on
`Failure` the result does not depend on `f` (so `f` is never invoked). -/
theorem C6_and_then_spec (f : Unit → Outcome) :
    Outcome.and_then Outcome.Success f = f ()
      ∧ Outcome.and_then Outcome.Failure f = Outcome.Failure
      ∧ ∀ g : Unit → Outcome,
          Outcome.and_then Outcome.Failure f
            = Outcome.and_then Outcome.Failure g :=
  ⟨rfl, rfl, fun _ => rfl⟩

/-- C7: for every thunk `f` producing an Outcome,
`Failure.or_then f = f ()` and `Success.or_then f = Success`; on
`Success` the result does not depend on `f` (so `f` is never invoked). -/
theorem C7_or_then_spec (f : Unit → Outcome) :
    Outcome.or_then Outcome.Failure f = f ()
      ∧ Outcome.or_then Outcome.Success f = Outcome.Success
      ∧ ∀ g : Unit → Outcome,
          Outcome.or_then Outcome.Success f
            = Outcome.or_then Outcome.Success g :=
  ⟨rfl, rfl, fun _ => rfl⟩

/-- C8: for every value `x` of any type `T`, `Success.or_none x = some x`
and `Failure.or_none x = none`. -/
theorem C8_or_none_spec (T : Type) (x : T) :
    Outcome.or_none Outcome.Success x = some x
      ∧ Outcome.or_none Outcome.Failure x = (none : Option T) :=
  ⟨rfl, rfl⟩

/-- C9: for every pair of values `g : T` and `e : E`,
`Success.or_err g e = Ok g` and `Failure.or_err g e = Err e`. -/
theorem C9_or_err_spec (T E : Type) (g : T) (e : E) :
    Outcome.or_err Outcome.Success g e = Except.ok g
      ∧ Outcome.or_err Outcome.Failure g e = (Except.error e : Except E T) :=
  ⟨rfl, rfl⟩

/-- C10: for all Outcomes `a` and `b`, the lazy combinators applied to a
constant thunk coincide with the eager ones:
`a.and_then (fun _ => b) = a.and b` and
`a.or_then (fun _ => b) = a.or b`. -/
theorem C10_lazy_eq_eager (a b : Outcome) :
    Outcome.and_then a (fun _ => b) = Outcome.and a b
      ∧ Outcome.or_then a (fun _ => b) = Outcome.or a b := by
  cases a <;> exact ⟨rfl, rfl⟩
